import Mathlib

/-!
Verification of the Hero API service (src/main.py): a FastAPI + SQLModel
CRUD service over a single SQLite-backed table.

The embedding is a shallow one.  A request `Hero` is the body model of the
`POST /heroes/` endpoint: its `id` field (aliased `identificator` in the
source) is optional, so a client may or may not supply it.  A `StoredHero`
is a persisted row, whose primary key is always populated.  The database is
the list of persisted rows.  The storage layer (SQLite via SQLModel) is
embedded by its documented semantics: an `INSERT` whose primary key is
absent receives the next rowid (one more than the largest rowid in use, or
1 on an empty table); an `INSERT` with an explicit primary key keeps it,
failing when the key already exists (primary-key uniqueness).  Handler
bodies are translated line by line from `src/main.py`; Python truthiness
tests (`if name:`, `if age:`, `if not hero:`) are modelled exactly:
`None` and the empty string and zero are falsy.
-/

/-- Request-side hero record (the body model of `POST /heroes/`,
class `Hero` in `src/main.py`): `id` is optional (`default=None`),
`name` required, `age` optional. -/
structure Hero where
  id : Option Int
  name : String
  age : Option Int
deriving Repr, DecidableEq

/-- A persisted row of the `hero` table: the primary key is always
populated once the row is stored. -/
structure StoredHero where
  id : Int
  name : String
  age : Option Int
deriving Repr, DecidableEq

/-- The database state: the rows of the single `hero` table, in storage
order (insertion order for SQLite's rowid table). -/
structure DB where
  rows : List StoredHero
deriving Repr, DecidableEq

/-- The state after `SQLModel.metadata.create_all(engine)` on a fresh
database file: an empty `hero` table. -/
def emptyDB : DB := ⟨[]⟩

/-- An HTTP error response as raised by `HTTPException(status_code, detail)`. -/
structure HTTPError where
  status_code : Nat
  detail : String
deriving Repr, DecidableEq

/-- Modelled from SQLite's rowid assignment (the storage layer behind
`session.add`/`session.commit`): when the inserted row's integer primary
key is absent, the rowid chosen is one more than the largest rowid
currently in use, and 1 when the table is empty. -/
def nextAutoId (db : DB) : Int :=
  match db.rows.map (fun r => r.id) with
  | [] => 1
  | i :: is => is.foldl max i + 1

/-- Handler of `POST /heroes/` (`create_hero` in `src/main.py`):
`session.add(hero); session.commit(); session.refresh(hero); return hero`.
The parsed body is handed to storage as is.  A row whose primary key is
absent gets the auto-assigned rowid; an explicit primary key is kept,
and the insert fails (surfaced as a 5xx storage error) when that key is
already in use. -/
def create_hero (hero : Hero) (db : DB) : Except HTTPError (StoredHero × DB) :=
  match hero.id with
  | some i =>
      if db.rows.any (fun r => r.id == i) then
        Except.error ⟨500, "Internal Server Error"⟩
      else
        let r : StoredHero := ⟨i, hero.name, hero.age⟩
        Except.ok (r, ⟨db.rows ++ [r]⟩)
  | none =>
      let r : StoredHero := ⟨nextAutoId db, hero.name, hero.age⟩
      Except.ok (r, ⟨db.rows ++ [r]⟩)

/-- Python truthiness of the optional `name` query parameter:
`if name:` is taken iff the value is neither `None` nor `""`. -/
def truthyOptStr : Option String → Bool
  | none => false
  | some s => !(s == "")

/-- Python truthiness of the optional `age` query parameter:
`if age:` is taken iff the value is neither `None` nor `0`. -/
def truthyOptInt : Option Int → Bool
  | none => false
  | some n => !(n == 0)

/-- Handler of `GET /heroes/` (`read_heroes` in `src/main.py`):
start from `select(Hero)`, add `where(Hero.name == name)` under
`if name:`, add `where(Hero.age == age)` under `if age:`, then run the
query.  A SQL equality `Hero.age == age` on the nullable column matches
only rows whose `age` is non-NULL and equal. -/
def read_heroes (name : Option String) (age : Option Int) (db : DB) :
    List StoredHero :=
  let heroes := db.rows
  let heroes :=
    if truthyOptStr name then
      heroes.filter (fun h => h.name == name.getD "")
    else heroes
  let heroes :=
    if truthyOptInt age then
      heroes.filter (fun h => h.age == some (age.getD 0))
    else heroes
  heroes

/-- Handler of `GET /heroes/{hero_id}` (`read_hero` in `src/main.py`):
`session.get(Hero, hero_id)` is the primary-key lookup; `if not hero:`
raises `HTTPException(404, "Hero not found")`.  The handler performs no
write, so it returns the database state unchanged alongside the result. -/
def read_hero (hero_id : Int) (db : DB) :
    Except HTTPError StoredHero × DB :=
  match db.rows.find? (fun h => h.id == hero_id) with
  | none => (Except.error ⟨404, "Hero not found"⟩, db)
  | some h => (Except.ok h, db)

/-! ### Helper lemmas about the storage model -/

theorem foldl_max_init_le (l : List Int) (b : Int) : b ≤ l.foldl max b := by
  induction l generalizing b with
  | nil => exact le_refl b
  | cons a l ih => exact le_trans (le_max_left b a) (ih (max b a))

theorem mem_le_foldl_max {a : Int} {l : List Int} (b : Int) (h : a ∈ l) :
    a ≤ l.foldl max b := by
  induction l generalizing b with
  | nil => cases h
  | cons c l ih =>
      rcases List.mem_cons.mp h with h | h
      · subst h
        exact le_trans (le_max_right b a) (foldl_max_init_le l (max b a))
      · exact ih (max b c) h

theorem id_lt_nextAutoId {r : StoredHero} {db : DB} (h : r ∈ db.rows) :
    r.id < nextAutoId db := by
  have hmem : r.id ∈ db.rows.map (fun r => r.id) := List.mem_map_of_mem _ h
  unfold nextAutoId
  cases hids : db.rows.map (fun r => r.id) with
  | nil => rw [hids] at hmem; cases hmem
  | cons i is =>
      rw [hids] at hmem
      rcases List.mem_cons.mp hmem with h | h
      · subst h
        exact Int.lt_add_one_iff.mpr (foldl_max_init_le is r.id)
      · exact Int.lt_add_one_iff.mpr (mem_le_foldl_max i h)

theorem find?_append_of_none {α : Type} {p : α → Bool} {l₁ l₂ : List α}
    (h : l₁.find? p = none) : (l₁ ++ l₂).find? p = l₂.find? p := by
  induction l₁ with
  | nil => rfl
  | cons a l ih =>
      cases hp : p a with
      | false =>
          have hp' : ¬p a = true := by rw [hp]; decide
          rw [List.find?_cons_of_neg _ hp'] at h
          rw [List.cons_append, List.find?_cons_of_neg _ hp']
          exact ih h
      | true => rw [List.find?_cons_of_pos _ hp] at h; cases h

theorem create_hero_fresh_id {hero : Hero} {db : DB} {r : StoredHero}
    {db' : DB} (hc : create_hero hero db = Except.ok (r, db')) :
    (∀ x ∈ db.rows, x.id ≠ r.id) ∧ db'.rows = db.rows ++ [r] := by
  obtain ⟨hid, hname, hage⟩ := hero
  cases hid with
  | some i =>
      simp only [create_hero] at hc
      split at hc
      · cases hc
      · rename_i hany
        cases hc
        refine ⟨fun x hx => ?_, rfl⟩
        intro hxe
        exact hany (List.any_eq_true.mpr ⟨x, hx, beq_iff_eq.mpr hxe⟩)
  | none =>
      simp only [create_hero] at hc
      cases hc
      refine ⟨fun x hx => ?_, rfl⟩
      intro hxe
      have := id_lt_nextAutoId hx
      rw [hxe] at this
      exact lt_irrefl _ this

/-! ### The claims -/

/-- C1: a list request whose `age` query parameter equals 0 behaves
exactly as if the `age` parameter were absent, because `if age:` treats
zero as falsy and the age filter is never applied. -/
theorem read_heroes_age_zero_no_filter (name : Option String) (db : DB) :
    read_heroes name (some 0) db = read_heroes name none db := by
  simp [read_heroes, truthyOptInt]

/-- C7: a list request with neither `name` nor `age` present returns
every stored record. -/
theorem read_heroes_no_filters_all (db : DB) :
    read_heroes none none db = db.rows := rfl

/-- C3: `read_hero` yields the 404 error with detail "Hero not found"
iff no stored record carries the requested identifier; the database
state comes back unchanged; and a successful result is a stored record
carrying the requested identifier. -/
theorem read_hero_not_found_iff (hero_id : Int) (db : DB) :
    (read_hero hero_id db).2 = db ∧
    ((read_hero hero_id db).1 = Except.error ⟨404, "Hero not found"⟩ ↔
      ∀ h ∈ db.rows, h.id ≠ hero_id) ∧
    (∀ h : StoredHero, (read_hero hero_id db).1 = Except.ok h →
      h ∈ db.rows ∧ h.id = hero_id) := by
  unfold read_hero
  cases hf : db.rows.find? (fun h => h.id == hero_id) with
  | none =>
      refine ⟨rfl, ⟨fun _ h hmem heq => ?_, fun _ => rfl⟩,
        fun h hok => nomatch hok⟩
      exact List.find?_eq_none.mp hf h hmem (beq_iff_eq.mpr heq)
  | some h0 =>
      have hmem := List.mem_of_find?_eq_some hf
      have hpred : h0.id = hero_id := by
        have hb := List.find?_some hf
        simpa using hb
      refine ⟨rfl, ⟨fun he => (nomatch he), fun hall => ?_⟩,
        fun h hok => ?_⟩
      · exact absurd hpred (hall h0 hmem)
      · injection hok with he
        subst he
        exact ⟨hmem, hpred⟩

/-- Witness for C3 at a concrete state: looking up id 2 in a table whose
only row has id 1 produces the 404 error. -/
theorem read_hero_not_found_witness :
    (read_hero 2 ⟨[⟨1, "Astra", some 30⟩]⟩).1 =
      Except.error ⟨404, "Hero not found"⟩ :=
  (read_hero_not_found_iff 2 ⟨[⟨1, "Astra", some 30⟩]⟩).2.1.mpr (by decide)

/-- C4: after a successful create, an immediately subsequent get-by-id
with the returned id yields exactly the created record, with the
database state unchanged by the read. -/
theorem create_then_read (hero : Hero) (db : DB) (r : StoredHero)
    (db' : DB) (hc : create_hero hero db = Except.ok (r, db')) :
    read_hero r.id db' = (Except.ok r, db') := by
  obtain ⟨hfresh, hrows⟩ := create_hero_fresh_id hc
  have hnone : db.rows.find? (fun h => h.id == r.id) = none :=
    List.find?_eq_none.mpr
      (fun x hx hbeq => hfresh x hx (beq_iff_eq.mp hbeq))
  unfold read_hero
  rw [hrows, find?_append_of_none hnone]
  simp [List.find?]

/-- Witness for C4 at a concrete input: creating Astra in the empty
database and reading back id 1 returns the created record. -/
theorem create_then_read_witness :
    read_hero 1 ⟨[⟨1, "Astra", some 30⟩]⟩ =
      (Except.ok ⟨1, "Astra", some 30⟩, ⟨[⟨1, "Astra", some 30⟩]⟩) :=
  create_then_read ⟨none, "Astra", some 30⟩ emptyDB ⟨1, "Astra", some 30⟩
    ⟨[⟨1, "Astra", some 30⟩]⟩ rfl

/-- C5: a well-formed create request (name plus optional age, no id)
succeeds, returns the storage-assigned id with name and age preserved
exactly, and persists exactly one new row. -/
theorem create_hero_spec (db : DB) (n : String) (a : Option Int) :
    create_hero ⟨none, n, a⟩ db =
      Except.ok (⟨nextAutoId db, n, a⟩,
        ⟨db.rows ++ [⟨nextAutoId db, n, a⟩]⟩) := rfl

/-- Counterexample to C2: creating a hero whose body carries the
identifier 7 (via the `identificator` alias) against the empty database
persists and returns id 7, the client-supplied value, which differs
from the storage auto-assignment for that state. -/
theorem create_hero_client_id_counterexample :
    create_hero ⟨some 7, "Astra", none⟩ emptyDB =
      Except.ok (⟨7, "Astra", none⟩, ⟨[⟨7, "Astra", none⟩]⟩) ∧
    (7 : Int) ≠ nextAutoId emptyDB := by
  exact ⟨rfl, by decide⟩

/-- C2 amended: a client-supplied identifier is handed to storage as is;
when it collides with no stored row, the persisted and returned record
carries the client-supplied identifier, not an auto-assigned one. -/
theorem create_hero_client_id_used (db : DB) (n : String)
    (a : Option Int) (i : Int) (hfree : ∀ x ∈ db.rows, x.id ≠ i) :
    create_hero ⟨some i, n, a⟩ db =
      Except.ok (⟨i, n, a⟩, ⟨db.rows ++ [⟨i, n, a⟩]⟩) := by
  have hany : (db.rows.any fun r => r.id == i) = false := by
    rw [List.any_eq_false]
    exact fun x hx hb => hfree x hx (beq_iff_eq.mp hb)
  simp [create_hero, hany]

/-- Witness for the amended C2: against the empty database the supplied
id 7 is persisted untouched. -/
theorem create_hero_client_id_used_witness :
    create_hero ⟨some 7, "Bolt", none⟩ emptyDB =
      Except.ok (⟨7, "Bolt", none⟩, ⟨[⟨7, "Bolt", none⟩]⟩) :=
  create_hero_client_id_used emptyDB "Bolt" none 7 (by decide)

/-- Filters compose into the conjunction of their predicates. -/
theorem filter_and {α : Type} (p q : α → Bool) (l : List α) :
    (l.filter p).filter q = l.filter (fun x => p x && q x) := by
  induction l with
  | nil => rfl
  | cons a l ih =>
      cases hp : p a <;> cases hq : q a <;>
        simp [List.filter_cons, hp, hq, ih]

/-- Counterexample to C6: with both parameters present as `name="Astra"`
and `age=0`, the handler returns a row whose age is 30, not the rows
matching both equality conditions (the age filter is silently dropped
for the falsy value 0). -/
theorem read_heroes_conjunction_counterexample :
    ¬ (read_heroes (some "Astra") (some 0) ⟨[⟨1, "Astra", some 30⟩]⟩ =
        List.filter (fun h => h.name == "Astra" && h.age == some 0)
          [⟨1, "Astra", some 30⟩]) := by decide

/-- C6 amended: when both parameters are present and truthy (name not
the empty string, age nonzero), the handler returns exactly the stored
records matching both equality conditions conjunctively. -/
theorem read_heroes_both_filters (db : DB) (n : String) (a : Int)
    (hn : n ≠ "") (ha : a ≠ 0) :
    read_heroes (some n) (some a) db =
      db.rows.filter (fun h => h.name == n && h.age == some a) := by
  have hn' : truthyOptStr (some n) = true := by
    simp [truthyOptStr, hn]
  have ha' : truthyOptInt (some a) = true := by
    simp [truthyOptInt, ha]
  simp only [read_heroes, hn', ha', if_true, Option.getD_some]
  exact filter_and _ _ _

/-- Witness for the amended C6 at a concrete state: filtering by
name "Astra" and age 30 keeps the matching row and drops the rest. -/
theorem read_heroes_both_filters_witness :
    read_heroes (some "Astra") (some 30)
        ⟨[⟨1, "Astra", some 30⟩, ⟨2, "Bolt", none⟩]⟩ =
      List.filter (fun h => h.name == "Astra" && h.age == some 30)
        [⟨1, "Astra", some 30⟩, ⟨2, "Bolt", none⟩] :=
  read_heroes_both_filters ⟨[⟨1, "Astra", some 30⟩, ⟨2, "Bolt", none⟩]⟩
    "Astra" 30 (by decide) (by decide)

/-- Counterexample to C8: two successive creates whose bodies carry the
explicit identifiers 10 and then 5 both succeed, and the second assigned
identifier is smaller than the first, refuting strict monotonicity in
creation order. -/
theorem create_ids_counterexample :
    create_hero ⟨some 10, "Astra", none⟩ emptyDB =
      Except.ok (⟨10, "Astra", none⟩, ⟨[⟨10, "Astra", none⟩]⟩) ∧
    create_hero ⟨some 5, "Bolt", none⟩ ⟨[⟨10, "Astra", none⟩]⟩ =
      Except.ok (⟨5, "Bolt", none⟩,
        ⟨[⟨10, "Astra", none⟩, ⟨5, "Bolt", none⟩]⟩) ∧
    ¬ ((10 : Int) < 5) := by
  refine ⟨rfl, rfl, by decide⟩

/-- C8 amended: identifiers stay unique across all stored records (a
successful create never duplicates an id), and for creates without a
client-supplied id the auto-assigned identifiers are strictly
increasing in creation order. -/
theorem create_hero_id_invariants :
    (∀ (db : DB) (hero : Hero) (r : StoredHero) (db' : DB),
        create_hero hero db = Except.ok (r, db') →
        (db.rows.map (fun x => x.id)).Nodup →
        (db'.rows.map (fun x => x.id)).Nodup) ∧
    (∀ (db : DB) (h₁ h₂ : Hero) (r₁ : StoredHero) (db₁ : DB)
        (r₂ : StoredHero) (db₂ : DB),
        h₁.id = none → h₂.id = none →
        create_hero h₁ db = Except.ok (r₁, db₁) →
        create_hero h₂ db₁ = Except.ok (r₂, db₂) →
        r₁.id < r₂.id) := by
  constructor
  · intro db hero r db' hc hnd
    obtain ⟨hfresh, hrows⟩ := create_hero_fresh_id hc
    rw [hrows, List.map_append, List.nodup_append]
    refine ⟨hnd, List.nodup_singleton _, fun x hx hy => ?_⟩
    obtain ⟨y, hy', hyx⟩ := List.mem_map.mp hx
    rw [List.map_singleton, List.mem_singleton] at hy
    exact hfresh y hy' (hyx.trans hy)
  · intro db h₁ h₂ r₁ db₁ r₂ db₂ hid₁ hid₂ hc₁ hc₂
    obtain ⟨i₁, n₁, a₁⟩ := h₁
    obtain ⟨i₂, n₂, a₂⟩ := h₂
    simp only at hid₁ hid₂
    subst hid₁; subst hid₂
    simp only [create_hero] at hc₁ hc₂
    cases hc₁
    cases hc₂
    exact id_lt_nextAutoId
      (List.mem_append.mpr (Or.inr (List.mem_singleton.mpr rfl)))

/-- Witness for the amended C8: creating Astra then Bolt (no ids in
either body) from the empty database assigns ids 1 then 2, with the
second strictly greater. -/
theorem create_hero_id_invariants_witness :
    create_hero ⟨none, "Astra", none⟩ emptyDB =
      Except.ok (⟨1, "Astra", none⟩, ⟨[⟨1, "Astra", none⟩]⟩) ∧
    (1 : Int) < 2 :=
  ⟨rfl, create_hero_id_invariants.2 emptyDB ⟨none, "Astra", none⟩
    ⟨none, "Bolt", none⟩ ⟨1, "Astra", none⟩ ⟨[⟨1, "Astra", none⟩]⟩
    ⟨2, "Bolt", none⟩ ⟨[⟨1, "Astra", none⟩, ⟨2, "Bolt", none⟩]⟩
    rfl rfl rfl rfl⟩

/-- C10: a list request whose `name` query parameter is the empty string
behaves exactly as if the `name` parameter were absent, because
`if name:` treats the empty string as falsy and the name filter is never
applied. -/
theorem read_heroes_empty_name_no_filter (age : Option Int) (db : DB) :
    read_heroes (some "") age db = read_heroes none age db := by
  simp [read_heroes, truthyOptStr]
